import Mathlib

/-!
Shallow embedding of the authentication routes of a small server-rendered
Express application (src/routes/authRoutes.js) together with its Mongoose
user model (models/User.js, the `userSchema`).

Modelling conventions:
* Machine state is passed explicitly: the Mongo collection is a `List User`,
  `user.save()` replaces the document with the matching `_id`, and the
  Express session is an `Option SessionUser` threaded in and out.
* `Date.now()` is an explicit `now : Nat` parameter (milliseconds).
* `bcrypt.compare`, `bcrypt.hash` and `speakeasy.totp.verify` are opaque
  library calls; they enter as function parameters, so theorems hold for
  every behaviour of those libraries.
* JavaScript falsiness of request-body string fields: an absent or empty
  field is modelled as `""` (both `undefined` and `""` are falsy and take
  the same branch in the source).
* A `lockUntil` of `null` is `none`; a stored `Date` is its timestamp in
  milliseconds.
-/

namespace Auth

/-- The persisted user document, following `userSchema` in models/User.js:
name, email, password (bcrypt hash), avatar (default null),
loginAttempts (default 0), lockUntil (default null), twoFASecret
(optional), is2FAEnabled (default false); `_id` is added by Mongoose. -/
structure User where
  _id : Nat
  name : String
  email : String
  password : String
  avatar : Option String := none
  loginAttempts : Nat := 0
  lockUntil : Option Nat := none
  twoFASecret : Option String := none
  is2FAEnabled : Bool := false
  deriving DecidableEq, Repr

/-- The record stored in `req.session.user` by the login handlers:
`{ _id, name, email, avatar }`. -/
structure SessionUser where
  _id : Nat
  name : String
  email : String
  avatar : Option String
  deriving DecidableEq, Repr

/-- An HTTP response produced by a handler: `res.render(view, { error })`,
`res.render("dashboard", { user })`, or `res.redirect(path)`. -/
inductive Response where
  | render (view : String) (error : Option String)
  | renderDashboard (user : User)
  | redirect (path : String)
  deriving DecidableEq, Repr

/-- The user collection. -/
abbrev DB := List User

/-- `User.findOne({ email })`: the first stored user with this email
(the schema declares email unique). -/
def findOne (db : DB) (email : String) : Option User :=
  db.find? (fun u => u.email == email)

/-- `User.findById(id)`. -/
def findById (db : DB) (id : Nat) : Option User :=
  db.find? (fun u => u._id == id)

/-- `user.save()`: write the document back over the stored document with
the same `_id`. -/
def saveUser (db : DB) (u : User) : DB :=
  db.map (fun v => if v._id == u._id then u else v)

/-- The guard `user.lockUntil && user.lockUntil > Date.now()` of both
login handlers: a null `lockUntil` is falsy, otherwise the timestamps
are compared. -/
def lockActive (lockUntil : Option Nat) (now : Nat) : Bool :=
  match lockUntil with
  | some t => decide (now < t)
  | none => false

/-- `Math.ceil((user.lockUntil - Date.now()) / 1000 / 60)` in exact
integer arithmetic (the source divides exact integer milliseconds by
1000 and then 60, so this is the ceiling of `(lockUntil - now)/60000`). -/
def remainingMinutes (lockUntil now : Nat) : Nat :=
  (lockUntil - now + 59999) / 60000

/-- What a login-family handler leaves behind: the response, the user
collection after any `save()`, and the session. -/
structure Outcome where
  response : Response
  db : DB
  session : Option SessionUser
  deriving DecidableEq, Repr

/-- POST /login, the 2FA version (src/routes/authRoutes.js lines 211-272).
`bcompare password hash` stands for `await bcrypt.compare(password, hash)`. -/
def postLogin2FA (bcompare : String → String → Bool) (now : Nat)
    (db : DB) (session : Option SessionUser)
    (email password : String) : Outcome :=
  -- `if (!email || !password)`
  if email = "" ∨ password = "" then
    ⟨.render "login" (some "Email and password are required."), db, session⟩
  else
    -- `const user = await User.findOne({ email })`
    match findOne db email with
    | none => ⟨.render "login" (some "Invalid email or password."), db, session⟩
    | some user =>
      -- `if (user.lockUntil && user.lockUntil > Date.now())`
      if lockActive user.lockUntil now then
        -- in this branch `user.lockUntil` is `some t` with `now < t`
        ⟨.render "login" (some ("The account is temporarily blocked. Try again after "
            ++ toString (remainingMinutes (user.lockUntil.getD 0) now) ++ " minutes.")),
          db, session⟩
      -- `const isPasswordValid = await bcrypt.compare(password, user.password)`
      else if bcompare password user.password = false then
        -- `user.loginAttempts += 1`
        let user1 := { user with loginAttempts := user.loginAttempts + 1 }
        -- `if (user.loginAttempts >= 5)`
        if 5 ≤ user1.loginAttempts then
          let user2 := { user1 with
            lockUntil := some (now + 10 * 60 * 1000), loginAttempts := 0 }
          ⟨.render "login" (some "The account has been temporarily blocked for 10 minutes."),
            saveUser db user2, session⟩
        else
          ⟨.render "login" (some "Invalid email or password."), saveUser db user1, session⟩
      else
        -- `user.loginAttempts = 0; user.lockUntil = null; await user.save()`
        let user2 := { user with loginAttempts := 0, lockUntil := none }
        -- `req.session.user = { _id, name, email, avatar }`
        let newSession := some (SessionUser.mk user2._id user2.name user2.email user2.avatar)
        -- `if (user.is2FAEnabled) return res.redirect("/verify-otp")`
        if user2.is2FAEnabled then
          ⟨.redirect "/verify-otp", saveUser db user2, newSession⟩
        else
          ⟨.redirect "/dashboard", saveUser db user2, newSession⟩

/-- POST /login, the first version without 2FA (src/routes/authRoutes.js
lines 57-112): identical up to the tail, which always redirects to
/dashboard. -/
def postLoginV1 (bcompare : String → String → Bool) (now : Nat)
    (db : DB) (session : Option SessionUser)
    (email password : String) : Outcome :=
  if email = "" ∨ password = "" then
    ⟨.render "login" (some "Email and password are required."), db, session⟩
  else
    match findOne db email with
    | none => ⟨.render "login" (some "Invalid email or password."), db, session⟩
    | some user =>
      if lockActive user.lockUntil now then
        ⟨.render "login" (some ("The account is temporarily blocked. Try again after "
            ++ toString (remainingMinutes (user.lockUntil.getD 0) now) ++ " minutes.")),
          db, session⟩
      else if bcompare password user.password = false then
        let user1 := { user with loginAttempts := user.loginAttempts + 1 }
        if 5 ≤ user1.loginAttempts then
          let user2 := { user1 with
            lockUntil := some (now + 10 * 60 * 1000), loginAttempts := 0 }
          ⟨.render "login" (some "The account has been temporarily blocked for 10 minutes."),
            saveUser db user2, session⟩
        else
          ⟨.render "login" (some "Invalid email or password."), saveUser db user1, session⟩
      else
        let user2 := { user with loginAttempts := 0, lockUntil := none }
        let newSession := some (SessionUser.mk user2._id user2.name user2.email user2.avatar)
        ⟨.redirect "/dashboard", saveUser db user2, newSession⟩

/-- GET /dashboard (src/routes/authRoutes.js lines 346-356): no session
user redirects to /login; a session user missing from the database
destroys the session and redirects to /login; otherwise the dashboard is
rendered with the stored user.  Returns the response and the session
after the request. -/
def getDashboard (db : DB) (session : Option SessionUser) :
    Response × Option SessionUser :=
  match session with
  | none => (.redirect "/login", none)
  | some s =>
    match findById db s._id with
    | none => (.redirect "/login", none)   -- `req.session.destroy()`
    | some user => (.renderDashboard user, some s)

/-- POST /verify-otp (src/routes/authRoutes.js lines 308-342).
`totpVerify secret token` stands for `speakeasy.totp.verify({ secret,
encoding: 'base32', token, window: 1 })` with the stored `twoFASecret`. -/
def postVerifyOtp (totpVerify : Option String → String → Bool)
    (db : DB) (session : Option SessionUser) (otp : String) : Outcome :=
  match session with
  | none => ⟨.redirect "/login", db, none⟩
  | some s =>
    match findById db s._id with
    | none => ⟨.redirect "/login", db, none⟩   -- `req.session.destroy()`
    | some user =>
      if totpVerify user.twoFASecret otp then
        ⟨.redirect "/dashboard", db, some s⟩
      else
        ⟨.render "verify-otp" (some "Invalid OTP. Try again."), db, some s⟩

/-- POST /register (src/routes/authRoutes.js lines 180-207).
`bhash password` stands for `await bcrypt.hash(password, 10)`; `freshId`
is the `_id` Mongoose assigns to the new document. -/
def postRegister (bhash : String → String) (freshId : Nat)
    (db : DB) (name email password : String) : Response × DB :=
  -- `if (!name || !email || !password)`
  if name = "" ∨ email = "" ∨ password = "" then
    (.render "register" (some "All fields are required."), db)
  else
    -- `const existingUser = await User.findOne({ email })`
    match findOne db email with
    | some _ => (.render "register" (some "This email has already been registered."), db)
    | none =>
      -- `await new User({ name, email, password: hashedPassword }).save()`
      let hashedPassword := bhash password
      (.redirect "/login",
        db ++ [{ _id := freshId, name := name, email := email,
                 password := hashedPassword }])

/-! ## Concrete documents used in demonstrations and witnesses -/

/-- A stored user with 2FA enabled, password hash `"hash"`, fresh counters. -/
def aliceUser : User :=
  { _id := 1, name := "Alice", email := "alice@example.com", password := "hash",
    twoFASecret := some "BASE32SECRET", is2FAEnabled := true }

/-- A stored user without 2FA. -/
def bobUser : User :=
  { _id := 2, name := "Bob", email := "bob@example.com", password := "hash" }

/-- A bcrypt model accepting exactly the password `"pw"` against `"hash"`. -/
def bcryptPw : String → String → Bool :=
  fun p h => p == "pw" && h == "hash"

/-- A TOTP model accepting exactly the token `"123456"` against the
secret `"BASE32SECRET"`. -/
def totpAccepts : Option String → String → Bool :=
  fun s tok => s == some "BASE32SECRET" && tok == "123456"

/-! ## Claims -/

/-- C1: the claim fails on the code.  A user with `is2FAEnabled = true`
who passes the password check is redirected to /verify-otp, but the
session has already been issued before the 2FA branch, and GET /dashboard
accepts any session naming a stored user.  Evaluated at a concrete input:
the very session produced by the password step, with no POST /verify-otp
ever made, renders the dashboard. -/
theorem c1_dashboard_reachable_before_otp :
    (postLogin2FA bcryptPw 1000 [aliceUser] none "alice@example.com" "pw").response
        = Response.redirect "/verify-otp"
    ∧ getDashboard (postLogin2FA bcryptPw 1000 [aliceUser] none "alice@example.com" "pw").db
        (postLogin2FA bcryptPw 1000 [aliceUser] none "alice@example.com" "pw").session
        = (Response.renderDashboard aliceUser, some ⟨1, "Alice", "alice@example.com", none⟩) := by
  decide

/-- C7: GET /dashboard access control.  With no session user the response
is a redirect to /login and nothing is rendered; with a session user whose
id is not stored the session is destroyed and the response redirects to
/login; the dashboard is rendered exactly when the session user is stored. -/
theorem c7_dashboard_access_control (db : DB) (s : SessionUser) :
    getDashboard db none = (Response.redirect "/login", none)
    ∧ (findById db s._id = none →
        getDashboard db (some s) = (Response.redirect "/login", none))
    ∧ (∀ u : User, findById db s._id = some u →
        getDashboard db (some s) = (Response.renderDashboard u, some s)) := by
  refine ⟨rfl, ?_, ?_⟩
  · intro h; simp [getDashboard, h]
  · intro u h; simp [getDashboard, h]

/-- Witness for C7 at concrete inputs: an unknown session id redirects to
/login destroying the session, and Bob's session renders the dashboard. -/
theorem c7_dashboard_access_control_witness :
    getDashboard [bobUser] (some ⟨9, "Eve", "eve@example.com", none⟩)
        = (Response.redirect "/login", none)
    ∧ getDashboard [bobUser] (some ⟨2, "Bob", "bob@example.com", none⟩)
        = (Response.renderDashboard bobUser, some ⟨2, "Bob", "bob@example.com", none⟩) :=
  ⟨(c7_dashboard_access_control [bobUser] ⟨9, "Eve", "eve@example.com", none⟩).2.1 (by decide),
   (c7_dashboard_access_control [bobUser] ⟨2, "Bob", "bob@example.com", none⟩).2.2 bobUser
      (by decide)⟩

/-- C2: a wrong password for a stored, not currently locked user whose
persisted loginAttempts is 4 sets lockUntil to now + 10*60*1000, resets
loginAttempts to 0, persists both changes via save, and responds that the
account has been temporarily blocked for 10 minutes. -/
theorem c2_fifth_wrong_password_locks
    (bcompare : String → String → Bool) (now : Nat) (db : DB)
    (session : Option SessionUser) (email password : String) (u : User)
    (hemail : email ≠ "") (hpw : password ≠ "")
    (hfind : findOne db email = some u)
    (hlock : lockActive u.lockUntil now = false)
    (hattempts : u.loginAttempts = 4)
    (hwrong : bcompare password u.password = false) :
    postLogin2FA bcompare now db session email password =
      ⟨Response.render "login"
          (some "The account has been temporarily blocked for 10 minutes."),
        saveUser db { u with loginAttempts := 0, lockUntil := some (now + 10 * 60 * 1000) },
        session⟩ := by
  simp [postLogin2FA, hemail, hpw, hfind, hlock, hwrong, hattempts]

/-- Witness for C2: a user with loginAttempts 4 and a bcrypt model
rejecting everything; the lock is written and the blocked message shown. -/
theorem c2_fifth_wrong_password_locks_witness :
    postLogin2FA (fun _ _ => false) 100 [{ bobUser with loginAttempts := 4 }] none
        "bob@example.com" "nope" =
      ⟨Response.render "login"
          (some "The account has been temporarily blocked for 10 minutes."),
        [{ bobUser with loginAttempts := 0, lockUntil := some (100 + 10 * 60 * 1000) }],
        none⟩ := by
  have h := c2_fifth_wrong_password_locks (fun _ _ => false) 100
    [{ bobUser with loginAttempts := 4 }] none "bob@example.com" "nope"
    { bobUser with loginAttempts := 4 }
    (by decide) (by decide) (by decide) (by decide) (by decide) rfl
  simpa [saveUser, bobUser] using h

/-- The exact-arithmetic rendering of the source's
`Math.ceil((lockUntil - Date.now()) / 1000 / 60)` agrees with the
mathematical ceiling of `(lockUntil - now) / 60000` whenever the lock is
in the future. -/
theorem remainingMinutes_cast_eq_ceil (t now : Nat) (h : now < t) :
    ((remainingMinutes t now : Nat) : ℤ) = ⌈(((t : ℚ) - (now : ℚ)) / 60000)⌉ := by
  have hx : ((t : ℚ) - (now : ℚ)) = ((t - now : ℕ) : ℚ) := by
    rw [Nat.cast_sub h.le]
  rw [hx]
  set x := t - now with hxdef
  set z := remainingMinutes t now with hzdef
  have hz : z = (x + 59999) / 60000 := rfl
  have hA : z * 60000 ≤ x + 59999 := by rw [hz]; exact Nat.div_mul_le_self _ _
  have hB : x + 59999 < (z + 1) * 60000 := by
    rw [hz]
    exact (Nat.div_lt_iff_lt_mul (by norm_num)).mp (Nat.lt_succ_self _)
  have hA' : z * 60000 < x + 60000 := by omega
  have hB' : x ≤ z * 60000 := by omega
  symm
  rw [Int.ceil_eq_iff]
  constructor
  · rw [lt_div_iff₀ (by norm_num : (0 : ℚ) < 60000)]
    have : (z : ℚ) * 60000 < (x : ℚ) + 60000 := by exact_mod_cast hA'
    push_cast
    linarith
  · rw [div_le_iff₀ (by norm_num : (0 : ℚ) < 60000)]
    push_cast
    exact_mod_cast hB'

/-- C3: a stored user whose lockUntil is set and strictly in the future
makes POST /login render the temporarily-blocked error with the remaining
minutes ceil((lockUntil - now)/60000), leaving the collection and the
session untouched; the outcome does not depend on the bcrypt comparison
at all (it is never consulted). -/
theorem c3_locked_branch_decides
    (bcompare bcompare2 : String → String → Bool) (now : Nat) (db : DB)
    (session : Option SessionUser) (email password : String) (u : User) (t : Nat)
    (hemail : email ≠ "") (hpw : password ≠ "")
    (hfind : findOne db email = some u)
    (hlockT : u.lockUntil = some t) (ht : now < t) :
    postLogin2FA bcompare now db session email password =
      ⟨Response.render "login"
          (some ("The account is temporarily blocked. Try again after "
            ++ toString (remainingMinutes t now) ++ " minutes.")),
        db, session⟩
    ∧ postLogin2FA bcompare now db session email password
        = postLogin2FA bcompare2 now db session email password
    ∧ ((remainingMinutes t now : Nat) : ℤ) = ⌈(((t : ℚ) - (now : ℚ)) / 60000)⌉ := by
  have hlock : lockActive (some t) now = true := by
    simp [lockActive, ht]
  have h1 : ∀ bc : String → String → Bool,
      postLogin2FA bc now db session email password =
        ⟨Response.render "login"
            (some ("The account is temporarily blocked. Try again after "
              ++ toString (remainingMinutes t now) ++ " minutes.")),
          db, session⟩ := by
    intro bc
    simp [postLogin2FA, hemail, hpw, hfind, hlock, hlockT]
  exact ⟨h1 bcompare, (h1 bcompare).trans (h1 bcompare2).symm,
    remainingMinutes_cast_eq_ceil t now ht⟩

/-- Witness for C3: Bob locked until t = 700000 at now = 100000; both an
all-accepting and an all-rejecting bcrypt give the same blocked response
announcing 10 minutes, and 10 is the ceiling of 600000/60000. -/
theorem c3_locked_branch_decides_witness :
    postLogin2FA (fun _ _ => true) 100000
        [{ bobUser with lockUntil := some 700000 }] none "bob@example.com" "pw" =
      ⟨Response.render "login"
          (some ("The account is temporarily blocked. Try again after "
            ++ toString (remainingMinutes 700000 100000) ++ " minutes.")),
        [{ bobUser with lockUntil := some 700000 }], none⟩
    ∧ postLogin2FA (fun _ _ => true) 100000
        [{ bobUser with lockUntil := some 700000 }] none "bob@example.com" "pw"
      = postLogin2FA (fun _ _ => false) 100000
        [{ bobUser with lockUntil := some 700000 }] none "bob@example.com" "pw"
    ∧ ((remainingMinutes 700000 100000 : Nat) : ℤ)
        = ⌈(((700000 : ℚ) - (100000 : ℚ)) / 60000)⌉ :=
  c3_locked_branch_decides (fun _ _ => true) (fun _ _ => false) 100000
    [{ bobUser with lockUntil := some 700000 }] none "bob@example.com" "pw"
    { bobUser with lockUntil := some 700000 } 700000
    (by decide) (by decide) (by decide) rfl (by norm_num)

/-- C4: a wrong password for a stored user who is not currently locked
and whose loginAttempts is below 4 increments the persisted counter by
exactly 1 (every other field, lockUntil included, unchanged), leaves the
session untouched, and renders "Invalid email or password." — the same
message the handler renders when the email matches no stored user. -/
theorem c4_wrong_password_increments
    (bcompare : String → String → Bool) (now : Nat) (db : DB)
    (session : Option SessionUser) (email password : String) (u : User)
    (hemail : email ≠ "") (hpw : password ≠ "")
    (hfind : findOne db email = some u)
    (hlock : lockActive u.lockUntil now = false)
    (hattempts : u.loginAttempts < 4)
    (hwrong : bcompare password u.password = false) :
    postLogin2FA bcompare now db session email password =
      ⟨Response.render "login" (some "Invalid email or password."),
        saveUser db { u with loginAttempts := u.loginAttempts + 1 },
        session⟩
    ∧ ∀ db2 : DB, findOne db2 email = none →
        (postLogin2FA bcompare now db2 session email password).response =
          Response.render "login" (some "Invalid email or password.") := by
  constructor
  · have h5 : ¬ 5 ≤ u.loginAttempts + 1 := by omega
    simp [postLogin2FA, hemail, hpw, hfind, hlock, hwrong, h5]
  · intro db2 hnone
    simp [postLogin2FA, hemail, hpw, hnone]

/-- Witness for C4: Bob with loginAttempts 2 and an all-rejecting bcrypt;
the counter becomes 3, and the empty collection yields the same message. -/
theorem c4_wrong_password_increments_witness :
    postLogin2FA (fun _ _ => false) 100 [{ bobUser with loginAttempts := 2 }] none
        "bob@example.com" "nope" =
      ⟨Response.render "login" (some "Invalid email or password."),
        saveUser [{ bobUser with loginAttempts := 2 }] { bobUser with loginAttempts := 2 + 1 },
        none⟩
    ∧ (postLogin2FA (fun _ _ => false) 100 [] none "bob@example.com" "nope").response =
        Response.render "login" (some "Invalid email or password.") :=
  ⟨(c4_wrong_password_increments (fun _ _ => false) 100
      [{ bobUser with loginAttempts := 2 }] none "bob@example.com" "nope"
      { bobUser with loginAttempts := 2 }
      (by decide) (by decide) (by decide) (by decide) (by decide) rfl).1,
   (c4_wrong_password_increments (fun _ _ => false) 100
      [{ bobUser with loginAttempts := 2 }] none "bob@example.com" "nope"
      { bobUser with loginAttempts := 2 }
      (by decide) (by decide) (by decide) (by decide) (by decide) rfl).2
      [] (by decide)⟩

/-- C5: a correct password for a stored, not currently locked user resets
the persisted loginAttempts to 0, sets lockUntil to null, saves the user,
and issues a session holding exactly the record
{_id, name, email, avatar} of that user. -/
theorem c5_correct_password_resets_and_issues_session
    (bcompare : String → String → Bool) (now : Nat) (db : DB)
    (session : Option SessionUser) (email password : String) (u : User)
    (hemail : email ≠ "") (hpw : password ≠ "")
    (hfind : findOne db email = some u)
    (hlock : lockActive u.lockUntil now = false)
    (hright : bcompare password u.password = true) :
    (postLogin2FA bcompare now db session email password).db =
        saveUser db { u with loginAttempts := 0, lockUntil := none }
    ∧ (postLogin2FA bcompare now db session email password).session =
        some ⟨u._id, u.name, u.email, u.avatar⟩ := by
  by_cases h2 : u.is2FAEnabled = true
  · simp [postLogin2FA, hemail, hpw, hfind, hlock, hright, h2]
  · simp [postLogin2FA, hemail, hpw, hfind, hlock, hright, h2]

/-- Witness for C5: Alice with stale counters logs in with the correct
password; the stored document is reset and the session holds her record. -/
theorem c5_correct_password_witness :
    (postLogin2FA bcryptPw 100
        [{ aliceUser with loginAttempts := 3, lockUntil := some 50 }] none
        "alice@example.com" "pw").db =
      saveUser [{ aliceUser with loginAttempts := 3, lockUntil := some 50 }]
        { { aliceUser with loginAttempts := 3, lockUntil := some 50 } with
            loginAttempts := 0, lockUntil := none }
    ∧ (postLogin2FA bcryptPw 100
        [{ aliceUser with loginAttempts := 3, lockUntil := some 50 }] none
        "alice@example.com" "pw").session =
      some ⟨aliceUser._id, aliceUser.name, aliceUser.email, aliceUser.avatar⟩ :=
  c5_correct_password_resets_and_issues_session bcryptPw 100
    [{ aliceUser with loginAttempts := 3, lockUntil := some 50 }] none
    "alice@example.com" "pw" { aliceUser with loginAttempts := 3, lockUntil := some 50 }
    (by decide) (by decide) (by decide) (by decide) (by decide)

/-- C6: after a successful password login a user with is2FAEnabled true
is redirected to /verify-otp (not /dashboard); and for a session naming a
stored user, POST /verify-otp redirects to /dashboard exactly when the
TOTP check on the stored twoFASecret accepts the token, and otherwise
re-renders the OTP page with "Invalid OTP. Try again." changing no user
state. -/
theorem c6_twofa_challenge_flow
    (bcompare : String → String → Bool) (now : Nat) (db : DB)
    (session : Option SessionUser) (email password : String) (u : User)
    (hemail : email ≠ "") (hpw : password ≠ "")
    (hfind : findOne db email = some u)
    (hlock : lockActive u.lockUntil now = false)
    (hright : bcompare password u.password = true)
    (h2fa : u.is2FAEnabled = true) :
    (postLogin2FA bcompare now db session email password).response
        = Response.redirect "/verify-otp"
    ∧ ∀ (totpVerify : Option String → String → Bool) (db2 : DB) (s : SessionUser)
        (otp : String) (v : User), findById db2 s._id = some v →
        ((postVerifyOtp totpVerify db2 (some s) otp).response
            = Response.redirect "/dashboard"
          ↔ totpVerify v.twoFASecret otp = true)
        ∧ (totpVerify v.twoFASecret otp = false →
            postVerifyOtp totpVerify db2 (some s) otp =
              ⟨Response.render "verify-otp" (some "Invalid OTP. Try again."),
                db2, some s⟩) := by
  constructor
  · simp [postLogin2FA, hemail, hpw, hfind, hlock, hright, h2fa]
  · intro totpVerify db2 s otp v hv
    constructor
    · by_cases hT : totpVerify v.twoFASecret otp = true
      · simp [postVerifyOtp, hv, hT]
      · simp [postVerifyOtp, hv, hT]
    · intro hF
      simp [postVerifyOtp, hv, hF]

/-- Witness for C6: Alice logs in with the right password and is sent to
/verify-otp; with her session, the correct token is exactly what makes
POST /verify-otp redirect to /dashboard. -/
theorem c6_twofa_challenge_flow_witness :
    (postLogin2FA bcryptPw 1000 [aliceUser] none "alice@example.com" "pw").response
        = Response.redirect "/verify-otp"
    ∧ ((postVerifyOtp totpAccepts [aliceUser]
          (some ⟨1, "Alice", "alice@example.com", none⟩) "123456").response
            = Response.redirect "/dashboard"
        ↔ totpAccepts aliceUser.twoFASecret "123456" = true) :=
  ⟨(c6_twofa_challenge_flow bcryptPw 1000 [aliceUser] none "alice@example.com" "pw"
      aliceUser (by decide) (by decide) (by decide) (by decide) (by decide) (by decide)).1,
   ((c6_twofa_challenge_flow bcryptPw 1000 [aliceUser] none "alice@example.com" "pw"
      aliceUser (by decide) (by decide) (by decide) (by decide) (by decide) (by decide)).2
      totpAccepts [aliceUser] ⟨1, "Alice", "alice@example.com", none⟩ "123456"
      aliceUser (by decide)).1⟩

/-- C8 as stated is refuted: a POST /register whose email already belongs
to a stored user but whose name field is empty is answered with "All
fields are required.", not with the duplicate-email error, because the
all-fields check runs first. -/
theorem c8_duplicate_email_counterexample :
    findOne [bobUser] "bob@example.com" = some bobUser
    ∧ (postRegister (fun p => p) 7 [bobUser] "" "bob@example.com" "pw").1
        = Response.render "register" (some "All fields are required.")
    ∧ (postRegister (fun p => p) 7 [bobUser] "" "bob@example.com" "pw").1
        ≠ Response.render "register" (some "This email has already been registered.") := by
  decide

/-- C8 amended: for requests with all of name, email, password present, a
duplicate email is answered with "This email has already been
registered." and the collection is unchanged (nothing created, nothing
modified); a fresh email creates exactly one new user, whose password
field is the bcrypt hash of the submitted password, and redirects to
/login. -/
theorem c8_register_amended
    (bhash : String → String) (freshId : Nat) (db : DB)
    (name email password : String) :
    (name ≠ "" → email ≠ "" → password ≠ "" →
      ∀ w : User, findOne db email = some w →
        postRegister bhash freshId db name email password =
          (Response.render "register" (some "This email has already been registered."), db))
    ∧ (name ≠ "" → email ≠ "" → password ≠ "" → findOne db email = none →
        postRegister bhash freshId db name email password =
          (Response.redirect "/login",
            db ++ [{ _id := freshId, name := name, email := email,
                     password := bhash password }])) := by
  constructor
  · intro hn he hp w hw
    simp [postRegister, hn, he, hp, hw]
  · intro hn he hp hnone
    simp [postRegister, hn, he, hp, hnone]

/-- Witness for C8: registering Carol under Bob's email is rejected with
the collection untouched; registering her under a fresh email appends
exactly her document with the hashed password. -/
theorem c8_register_amended_witness :
    postRegister (fun p => p ++ "#h") 7 [bobUser] "Carol" "bob@example.com" "pw" =
      (Response.render "register" (some "This email has already been registered."), [bobUser])
    ∧ postRegister (fun p => p ++ "#h") 7 [bobUser] "Carol" "carol@example.com" "pw" =
      (Response.redirect "/login",
        [bobUser] ++ [{ _id := 7, name := "Carol", email := "carol@example.com",
                        password := "pw#h" }]) :=
  ⟨(c8_register_amended (fun p => p ++ "#h") 7 [bobUser] "Carol" "bob@example.com" "pw").1
      (by decide) (by decide) (by decide) bobUser (by decide),
   (c8_register_amended (fun p => p ++ "#h") 7 [bobUser] "Carol" "carol@example.com" "pw").2
      (by decide) (by decide) (by decide) (by decide)⟩

/-- Every member of `saveUser db w` is `w` or was already stored. -/
theorem mem_saveUser {db : DB} {w v : User} (hv : v ∈ saveUser db w) :
    v = w ∨ v ∈ db := by
  unfold saveUser at hv
  rcases List.mem_map.mp hv with ⟨x, hx, hxe⟩
  by_cases h : (x._id == w._id) = true
  · left
    rw [if_pos h] at hxe
    exact hxe.symm
  · right
    rw [if_neg h] at hxe
    exact hxe ▸ hx

/-- C9: if every stored user has loginAttempts at most 4, the collection
left behind by POST /login again has every loginAttempts at most 4: the
value 5 is never persisted, since reaching the threshold resets the
counter to 0 in the same save that sets lockUntil. -/
theorem c9_attempts_invariant
    (bcompare : String → String → Bool) (now : Nat) (db : DB)
    (session : Option SessionUser) (email password : String)
    (hinv : ∀ u ∈ db, u.loginAttempts ≤ 4) :
    ∀ v ∈ (postLogin2FA bcompare now db session email password).db,
      v.loginAttempts ≤ 4 := by
  intro v hv
  have hcases : (postLogin2FA bcompare now db session email password).db = db
      ∨ ∃ w : User, w.loginAttempts ≤ 4 ∧
          (postLogin2FA bcompare now db session email password).db = saveUser db w := by
    by_cases hep : email = "" ∨ password = ""
    · left
      simp [postLogin2FA, hep]
    rcases hfind : findOne db email with _ | user
    · left
      simp [postLogin2FA, hep, hfind]
    by_cases hlock : lockActive user.lockUntil now = true
    · left
      simp [postLogin2FA, hep, hfind, hlock]
    by_cases hpwv : bcompare password user.password = false
    · by_cases hg : 5 ≤ user.loginAttempts + 1
      · right
        refine ⟨{ user with loginAttempts := 0, lockUntil := some (now + 10 * 60 * 1000) }, by simp, ?_⟩
        simp [postLogin2FA, hep, hfind, hlock, hpwv, hg]
      · right
        refine ⟨{ user with loginAttempts := user.loginAttempts + 1 }, ?_, ?_⟩
        · simp only [not_le] at hg
          simpa using Nat.lt_succ_iff.mp hg
        · simp [postLogin2FA, hep, hfind, hlock, hpwv, hg]
    · right
      refine ⟨{ user with loginAttempts := 0, lockUntil := none }, by simp, ?_⟩
      by_cases h2 : user.is2FAEnabled = true
      · simp [postLogin2FA, hep, hfind, hlock, hpwv, h2]
      · simp [postLogin2FA, hep, hfind, hlock, hpwv, h2]
  rcases hcases with h | ⟨w, hw4, h⟩
  · rw [h] at hv
    exact hinv v hv
  · rw [h] at hv
    rcases mem_saveUser hv with rfl | hvdb
    · exact hw4
    · exact hinv v hvdb

/-- Witness for C9: Bob at the threshold (loginAttempts 4) fails a fifth
time; the theorem applied to the locked document that this login stores
bounds its counter by 4. -/
theorem c9_attempts_invariant_witness :
    ({ bobUser with loginAttempts := 0, lockUntil := some (100 + 10 * 60 * 1000) } : User).loginAttempts ≤ 4 :=
  c9_attempts_invariant (fun _ _ => false) 100 [{ bobUser with loginAttempts := 4 }]
    none "bob@example.com" "nope" (by decide)
    { bobUser with loginAttempts := 0, lockUntil := some (100 + 10 * 60 * 1000) }
    (by decide)

/-- C10: the two POST /login handlers in the source (lines 57-112 without
2FA and lines 211-272 with 2FA) produce the same response, the same final
collection and the same session on every request, provided any user the
request's email matches has is2FAEnabled false. -/
theorem c10_login_handlers_equivalent
    (bcompare : String → String → Bool) (now : Nat) (db : DB)
    (session : Option SessionUser) (email password : String)
    (h2fa : ∀ u : User, findOne db email = some u → u.is2FAEnabled = false) :
    postLoginV1 bcompare now db session email password
      = postLogin2FA bcompare now db session email password := by
  by_cases hep : email = "" ∨ password = ""
  · simp [postLoginV1, postLogin2FA, hep]
  · rcases hfind : findOne db email with _ | user
    · simp [postLoginV1, postLogin2FA, hep, hfind]
    · have h2 : user.is2FAEnabled = false := h2fa user hfind
      by_cases hlock : lockActive user.lockUntil now = true
      · simp [postLoginV1, postLogin2FA, hep, hfind, hlock]
      · by_cases hpwv : bcompare password user.password = false
        · simp [postLoginV1, postLogin2FA, hep, hfind, hlock, hpwv]
        · simp [postLoginV1, postLogin2FA, hep, hfind, hlock, hpwv, h2]

/-- Witness for C10: on Bob (2FA disabled) with the right password both
handlers agree. -/
theorem c10_login_handlers_equivalent_witness :
    postLoginV1 bcryptPw 100 [bobUser] none "bob@example.com" "pw"
      = postLogin2FA bcryptPw 100 [bobUser] none "bob@example.com" "pw" :=
  c10_login_handlers_equivalent bcryptPw 100 [bobUser] none "bob@example.com" "pw"
    (fun u hu => by cases Option.some.inj hu; rfl)

end Auth
